import Mathlib

/-!
Shallow embedding of the TRPG dice-roller engine from `src/Dicer.py` and
`src/dicer.py`.

Text is modelled as `List Char` (Python `str`); concrete literals are written
as Lean string literals converted with `String.data`.  Python exceptions are
modelled with `Except (List Char)`, caught at each public entry point and
turned into the `错误：<message>` result string, exactly as the `try/except`
blocks do.  The process-wide random source (`random.randint`) is modelled by
an entropy stream `rng : Nat → Nat` together with a cursor `k : Nat`: the
`i`-th call of `randint(1, n)` (with `n ≥ 1`) returns `1 + rng (k+i) % n`,
so every sequence of in-range draws is realised by some stream, and the
cursor is threaded through repeated evaluations the way the global generator
state is.  `randint(1, 0)` raises, which the model reflects with an error.

Simplifications that do not affect any claim: Python's `\d`, `\s` and
`str.strip` also accept some non-ASCII characters (modelled as ASCII only),
`int()` additionally accepts underscores between digits (not modelled), and
the text of the `int()` exception message omits Python's quoting of the
offending literal (claims only inspect the `错误：` head of error strings).
-/

/-- `\d` of the CPython `re` module, restricted to ASCII. -/
def isPyDigit (c : Char) : Bool := '0' ≤ c && c ≤ '9'

/-- `\s` of the CPython `re` module / `str.strip`, restricted to ASCII. -/
def isPySpace (c : Char) : Bool :=
  c = ' ' || c = '\t' || c = '\n' || c = '\r' || c = '\x0b' || c = '\x0c'

/-- Value of a nonempty run of decimal digits, as `int()` computes it. -/
def natOfDigits (ds : List Char) : Nat :=
  ds.foldl (fun a c => 10 * a + (c.toNat - '0'.toNat)) 0

/-- `leadsWith pat s` holds when `pat` occurs at the very start of `s`. -/
def leadsWith : List Char → List Char → Bool
  | [], _ => true
  | _ :: _, [] => false
  | a :: as, b :: bs => if a = b then leadsWith as bs else false

/-- `trailsWith pat s` holds when `pat` occurs at the very end of `s`. -/
def trailsWith (pat s : List Char) : Bool := leadsWith pat.reverse s.reverse

/-- Python's substring test `pat in s`. -/
def containsSub : List Char → List Char → Bool
  | [], pat => leadsWith pat []
  | c :: t, pat => if leadsWith pat (c :: t) then true else containsSub t pat

/-- Worker for `replaceAll`, structurally recursive on a fuel argument so
that it reduces definitionally.  Each step consumes at least one character
of `s` (the matched case drops `pat.length ≥ 1` characters), so fuel
`s.length` is always sufficient and the `0` case is unreachable. -/
def replaceAllFuel (pat rep : List Char) : Nat → List Char → List Char
  | 0, s => s
  | fuel + 1, s =>
    match s with
    | [] => []
    | c :: t =>
      if pat ≠ [] ∧ leadsWith pat (c :: t) = true then
        rep ++ replaceAllFuel pat rep fuel ((c :: t).drop pat.length)
      else
        c :: replaceAllFuel pat rep fuel t

/-- Python's `s.replace(pat, rep)`: replace every leftmost non-overlapping
occurrence (only called with nonempty `pat` by the engine). -/
def replaceAll (pat rep s : List Char) : List Char :=
  replaceAllFuel pat rep s.length s

/-- Python's `s.strip()` (ASCII whitespace). -/
def stripWs (s : List Char) : List Char :=
  ((s.dropWhile isPySpace).reverse.dropWhile isPySpace).reverse

/-- Python's `s.split('/')`. -/
def splitSlash : List Char → List (List Char)
  | [] => [[]]
  | c :: t =>
    match splitSlash t with
    | [] => [[]]
    | h :: r => if c = '/' then [] :: h :: r else (c :: h) :: r

/-- The fixed `错误：` head every caught exception is rendered with. -/
def errMark : List Char := "错误：".data

/-- Message of the `ValueError` raised by `int()` on a bad literal. -/
def pyIntMsg (s : List Char) : List Char :=
  "invalid literal for int() with base 10: ".data ++ s

/-- Python's `int(s)` for string arguments: optional surrounding whitespace,
an optional sign, then one or more decimal digits. -/
def pyInt (s : List Char) : Except (List Char) Int :=
  let t := stripWs s
  let su : Int × List Char :=
    match t with
    | '+' :: r => (1, r)
    | '-' :: r => (-1, r)
    | _ => (1, t)
  if su.2 ≠ [] ∧ su.2.all isPyDigit then
    .ok (su.1 * (natOfDigits su.2 : Int))
  else
    .error (pyIntMsg s)

/-- The literal substring that triggers the d100 critical override. -/
def oneD100 : List Char := "1d100".data

/-- `re.match(r'(\d*)d(\d+)([+-]\d+)?', s)`: an anchored prefix match.
Returns the three groups: the (possibly empty) count digits, the nonempty
sides digits, and optionally the sign and digits of the modifier. -/
def diceRegex (s : List Char) :
    Option (List Char × List Char × Option (Char × List Char)) :=
  let g1 := s.takeWhile isPyDigit
  match s.drop g1.length with
  | 'd' :: r2 =>
    let g2 := r2.takeWhile isPyDigit
    if g2 = [] then none
    else
      let r3 := r2.drop g2.length
      let g3 : Option (Char × List Char) :=
        match r3 with
        | c :: r4 =>
          if (c = '+' ∨ c = '-') ∧ r4.takeWhile isPyDigit ≠ [] then
            some (c, r4.takeWhile isPyDigit)
          else none
        | [] => none
      some (g1, g2, g3)
  | _ => none

/-- `int(match.group(3))` of the modifier group (0 when absent). -/
def modValue : Option (Char × List Char) → Int
  | some ('-', ds) => -(natOfDigits ds : Int)
  | some (_, ds) => (natOfDigits ds : Int)
  | none => 0

/-- The literal matched text of the modifier group (empty when absent). -/
def modText : Option (Char × List Char) → List Char
  | some (c, ds) => c :: ds
  | none => []

/-- `f"{n}"` for a natural number. -/
def natStr (n : Nat) : List Char := (toString n).data

/-- `f"{i}"` for a Python integer. -/
def intStr (i : Int) : List Char := (toString i).data

/-- The `count` draws `[random.randint(1, sides) for _ in range(count)]`,
reading entropy at cursor positions `k, k+1, …`. -/
def drawList (rng : Nat → Nat) (k count sides : Nat) : List Nat :=
  (List.range count).map (fun i => 1 + rng (k + i) % sides)

/-- `DiceRoller.roll_dice` (identical in both source files): parse the dice
spec, draw, sum, and render the `+`-joined breakdown with the literal
modifier suffix appended exactly when the modifier is nonzero.  Returns the
total, the breakdown string and the number of draws consumed from the
entropy stream.  `randint(1, 0)` raises before consuming any entropy, which
is the error case below (only reachable with `count ≥ 1` and `sides = 0`). -/
def rollDice (s : List Char) (rng : Nat → Nat) (k : Nat) :
    Except (List Char) (Int × List Char × Nat) :=
  match diceRegex s with
  | none => .error "无效的表达式！".data
  | some (g1, g2, g3) =>
    let count := if g1 = [] then 1 else natOfDigits g1
    let sides := natOfDigits g2
    let modifier := modValue g3
    if count ≠ 0 ∧ sides = 0 then
      .error "empty range for randrange() (1, 1, 0)".data
    else
      let rolls := drawList rng k count sides
      let total : Int := (rolls.sum : Int) + modifier
      let details :=
        List.intercalate ['+'] (rolls.map natStr) ++
          (if modifier ≠ 0 then modText g3 else [])
      .ok (total, details, count)

/-- `DiceRoller.check_success` (identical in both source files): the
difficulty threshold and the comparison, with Python's floor division. -/
def checkSuccess (target total : Int) (diff : Char) : Bool × Int :=
  let threshold :=
    if diff = 'h' then Int.fdiv target 2
    else if diff = 'e' then Int.fdiv target 5
    else target
  (decide (total ≤ threshold), threshold)

/-- Target extraction of `evaluate_expression` (identical in both files):
if a `/` is present, `split('/')` and unpack into exactly two variables —
CPython raises `ValueError: too many values to unpack (expected 2)` when the
split yields more than two parts — then parse the left part with `int()`. -/
def splitTarget (e : List Char) : Except (List Char) (Option Int × List Char) :=
  if containsSub e ['/'] then
    match splitSlash e with
    | [t, d] =>
      match pyInt t with
      | .ok tv => .ok (some tv, d)
      | .error m => .error m
    | _ => .error "too many values to unpack (expected 2)".data
  else
    .ok (none, e)

/-- The difficulty qualifier `Dicer.py` builds with its `if`-chain
(lines 137-141). -/
def diffStrOf (d : Char) : List Char :=
  if d = 'h' then "困难".data else if d = 'e' then "极难".data else []

/-- The `lvl_map` dictionary of `dicer.py` (line 135). -/
def lvlMap (c : Char) : List Char :=
  if c = 'h' then "困难".data else if c = 'e' then "极难".data else []

/-- The body of `evaluate_expression` after flag stripping — this part is
behaviourally identical in the two source files, which pass in their gamble
flag, their difficulty character and its rendered qualifier.  Covers the
target split, the roll, the `1d100` critical override (a substring check on
the unstripped dice text), the threshold check and the final formatting.
Returns the result string and the new entropy cursor; every raising path
raises before any entropy is consumed. -/
def evalCore (gamble : Bool) (diff : Char) (diffStr : List Char)
    (e : List Char) (rng : Nat → Nat) (k : Nat) :
    Except (List Char) (List Char × Nat) :=
  match splitTarget e with
  | .error m => .error m
  | .ok (target, diceExpr) =>
    match rollDice (stripWs diceExpr) rng k with
    | .error m => .error m
    | .ok (total, details, c) =>
      let head := stripWs diceExpr ++ ": ".data ++ details ++ "=".data ++ intStr total
      if containsSub diceExpr oneD100 = true ∧ total = 1 then
        .ok (head ++ ", 大成功！".data, k + c)
      else if containsSub diceExpr oneD100 = true ∧ 96 ≤ total then
        .ok (head ++ ", 大失败！".data, k + c)
      else
        let res :=
          match target with
          | some t =>
            let st := checkSuccess t total diff
            if st.1 then
              intStr total ++ "<=".data ++ intStr st.2 ++ ", ".data ++
                diffStr ++ "检定通过！".data
            else if gamble then
              intStr total ++ ">".data ++ intStr st.2 ++ ", ".data ++
                diffStr ++ "孤注一掷失败，视为大失败！".data
            else
              intStr total ++ ">".data ++ intStr st.2 ++ ", ".data ++
                diffStr ++ "检定失败！".data
          | none => intStr total
        .ok (head ++ ", ".data ++ res, k + c)

/-- Flag stripping of `Dicer.py` (lines 103-115): the gamble test is the
substring `-g` but the removal replaces the space-prefixed `' -g'`; then
`'-h'` is tested first (removing `' -h'`), else `'-e'` (removing `' -e'`). -/
def flagStripDicer (e : List Char) : Bool × Char × List Char :=
  let gamble := containsSub e "-g".data
  let e1 := if gamble then replaceAll " -g".data [] e else e
  if containsSub e1 "-h".data then (gamble, 'h', replaceAll " -h".data [] e1)
  else if containsSub e1 "-e".data then (gamble, 'e', replaceAll " -e".data [] e1)
  else (gamble, 'n', e1)

/-- The `try` body of `Dicer.py`'s `evaluate_expression`. -/
def evalDicerBody (e : List Char) (rng : Nat → Nat) (k : Nat) :
    Except (List Char) (List Char × Nat) :=
  let r := flagStripDicer e
  evalCore r.1 r.2.1 (diffStrOf r.2.1) r.2.2 rng k

/-- `DiceRoller.evaluate_expression` of `src/Dicer.py`: the `except` clause
renders any raised exception as `错误：<message>`.  The second component is
the entropy cursor after the evaluation. -/
def evalDicer (e : List Char) (rng : Nat → Nat) (k : Nat) : List Char × Nat :=
  match evalDicerBody e rng k with
  | .ok r => r
  | .error m => (errMark ++ m, k)

/-- One step of `dicer.py`'s options loop (lines 128-132): if the flag
substring is present, record it and replace-then-strip. -/
def stripOpt (flag : List Char) (e : List Char) : Bool × List Char :=
  if containsSub e flag then (true, stripWs (replaceAll flag [] e)) else (false, e)

/-- `dicer.py`'s options loop over the dict `{'-g', '-h', '-e'}` in insertion
order, each flag replaced without a leading space and the text stripped. -/
def optionsDicer2 (e : List Char) : Bool × Bool × Bool × List Char :=
  let g := stripOpt "-g".data e
  let h := stripOpt "-h".data g.2
  let x := stripOpt "-e".data h.2
  (g.1, h.1, x.1, x.2)

/-- The `try` body of `dicer.py`'s `evaluate_expression`:
`lvl = 'h' if options['-h'] else 'e' if options['-e'] else 'n'`. -/
def evalDicer2Body (e : List Char) (rng : Nat → Nat) (k : Nat) :
    Except (List Char) (List Char × Nat) :=
  let o := optionsDicer2 e
  let lvl := if o.2.1 then 'h' else if o.2.2.1 then 'e' else 'n'
  evalCore o.1 lvl (lvlMap lvl) o.2.2.2 rng k

/-- `DiceRoller.evaluate_expression` of `src/dicer.py`. -/
def evalDicer2 (e : List Char) (rng : Nat → Nat) (k : Nat) : List Char × Nat :=
  match evalDicer2Body e rng k with
  | .ok r => r
  | .error m => (errMark ++ m, k)

/-- Group 1 of `re.match(r'\.r\s*(\d+)?', command)` applied to the text
after `.r`: the digit run following the greedy whitespace run. -/
def rDigits (rest : List Char) : List Char :=
  (rest.drop (rest.takeWhile isPySpace).length).takeWhile isPyDigit

/-- `dice_type = int(match.group(1)) if match.group(1) else 100`. -/
def rSides (rest : List Char) : Nat :=
  if rDigits rest = [] then 100 else natOfDigits (rDigits rest)

/-- The matched arm of `quick_roll`: build `f"1d{dice_type}"`, roll it and
format, with the `except` clause rendering any raise (only possible for
`.r 0`, whose `randint(1, 0)` raises). -/
def quickRollR (rest : List Char) (rng : Nat → Nat) (k : Nat) : List Char :=
  match rollDice ("1d".data ++ natStr (rSides rest)) rng k with
  | .ok (total, details, _) =>
    "1d".data ++ natStr (rSides rest) ++ ": ".data ++ details ++ "=".data ++
      intStr total
  | .error m => errMark ++ m

/-- `DiceRoller.quick_roll` (identical in both files):
`re.match(r'\.r\s*(\d+)?', command)` succeeds exactly when the command
starts with `.r` (both optional groups always match, possibly empty, and
trailing text is ignored); otherwise `ValueError` is raised and caught. -/
def quickRoll (cmd : List Char) (rng : Nat → Nat) (k : Nat) : List Char :=
  match cmd with
  | '.' :: 'r' :: rest => quickRollR rest rng k
  | _ => errMark ++ "无效的表达式！".data

/-- Shape test used to state when `quick_roll`'s regex fails. -/
def isRCmd : List Char → Bool
  | '.' :: 'r' :: _ => true
  | _ => false

/-- The `\s+(.+)` tail shared by the two repeat-command regexes: a nonempty
whitespace run, then the (nonempty) `.+` group, which stops at a newline.
When the remaining text is all whitespace the greedy `\s+` backtracks by one
position at a time, so the group becomes the last non-newline character if
one exists beyond the first position. -/
def wsExprSplit (cs : List Char) : Option (List Char) :=
  let w := cs.takeWhile isPySpace
  let r := cs.drop w.length
  if w = [] then none
  else if r ≠ [] then some (r.takeWhile (fun c => c ≠ '\n'))
  else
    let t := (w.reverse.takeWhile (fun c => c = '\n')).length
    if 2 ≤ w.length - t then
      some ((w.drop (w.length - t - 1)).takeWhile (fun c => c ≠ '\n'))
    else none

/-- `re.match(r'\.m\s+-(\d+)\s+(.+)', command)`: the repeat count and the
inner expression of the `.m` form. -/
def mMatch : List Char → Option (Nat × List Char)
  | '.' :: 'm' :: rest =>
    let w1 := rest.takeWhile isPySpace
    if w1 = [] then none
    else
      match rest.drop w1.length with
      | '-' :: r2 =>
        let ds := r2.takeWhile isPyDigit
        if ds = [] then none
        else
          match wsExprSplit (r2.drop ds.length) with
          | some e => some (natOfDigits ds, e)
          | none => none
      | _ => none
  | _ => none

/-- `re.match(r'\.(d|t)\s+(.+)', command)`. -/
def dtMatch : List Char → Option (Char × List Char)
  | '.' :: c :: rest =>
    if c = 'd' ∨ c = 't' then
      match wsExprSplit rest with
      | some e => some (c, e)
      | none => none
    else none
  | _ => none

/-- The trial lines built by `_execute_rolls` (identical in both files,
shown here driving `Dicer.py`'s evaluator): trial `i+1` re-evaluates the
expression on the entropy left over by the previous trials, and its result
string — success or error — is emitted under its own number. -/
def execRollsList (e : List Char) (rng : Nat → Nat) :
    Nat → Nat → Nat → List (List Char)
  | 0, _, _ => []
  | n + 1, i, k =>
    let r := evalDicer e rng k
    ("第 ".data ++ natStr (i + 1) ++ " 次 -> ".data ++ r.1) ::
      execRollsList e rng n (i + 1) r.2

/-- `DiceRoller._execute_rolls`: the trial lines joined with `"\n"`. -/
def executeRolls (times : Nat) (e : List Char) (rng : Nat → Nat) (k : Nat) :
    List Char :=
  List.intercalate ['\n'] (execRollsList e rng times 0 k)

/-- `DiceRoller.repeat_roll` (identical in both files): the `.m` pattern is
tried first, then `.d`/`.t`; neither matching raises the `ValueError` the
`except` clause renders. -/
def repeatRoll (cmd : List Char) (rng : Nat → Nat) (k : Nat) : List Char :=
  match mMatch cmd with
  | some nt => executeRolls nt.1 nt.2 rng k
  | none =>
    match dtMatch cmd with
    | some ce => executeRolls (if ce.1 = 'd' then 2 else 3) ce.2 rng k
    | none => errMark ++ "无效的重复检定指令！".data

/-- Shared helper: whenever the dice text (after flag stripping and target
splitting) contains the substring `1d100` and the roll succeeded, a total of
`1` yields the critical-success line and a total `≥ 96` the critical-failure
line, both bypassing the target/difficulty/gamble logic. -/
lemma eval_critical (expr : List Char) (rng : Nat → Nat) (k : Nat) (g : Bool)
    (d : Char) (e2 : List Char) (tgt : Option Int) (diceExpr : List Char)
    (total : Int) (details : List Char) (c : Nat)
    (hF : flagStripDicer expr = (g, d, e2))
    (hS : splitTarget e2 = Except.ok (tgt, diceExpr))
    (hR : rollDice (stripWs diceExpr) rng k = Except.ok (total, details, c))
    (hC : containsSub diceExpr oneD100 = true) :
    (total = 1 → evalDicer expr rng k =
      (stripWs diceExpr ++ ": ".data ++ details ++ "=".data ++ intStr total ++
        ", 大成功！".data, k + c)) ∧
    (96 ≤ total → evalDicer expr rng k =
      (stripWs diceExpr ++ ": ".data ++ details ++ "=".data ++ intStr total ++
        ", 大失败！".data, k + c)) := by
  constructor
  · intro h1
    have hB : evalDicerBody expr rng k = Except.ok
        (stripWs diceExpr ++ ": ".data ++ details ++ "=".data ++ intStr total ++
          ", 大成功！".data, k + c) := by
      unfold evalDicerBody
      rw [hF]
      show evalCore g d (diffStrOf d) e2 rng k = _
      unfold evalCore
      rw [hS]
      dsimp only
      rw [hR]
      dsimp only
      rw [if_pos ⟨hC, h1⟩]
    unfold evalDicer
    rw [hB]
  · intro h96
    have hB : evalDicerBody expr rng k = Except.ok
        (stripWs diceExpr ++ ": ".data ++ details ++ "=".data ++ intStr total ++
          ", 大失败！".data, k + c) := by
      unfold evalDicerBody
      rw [hF]
      show evalCore g d (diffStrOf d) e2 rng k = _
      unfold evalCore
      rw [hS]
      dsimp only
      rw [hR]
      dsimp only
      rw [if_neg (by rintro ⟨-, h1⟩; omega), if_pos ⟨hC, h96⟩]
    unfold evalDicer
    rw [hB]

/-- C1: for every evaluated expression whose dice text contains the literal
substring `1d100`, a rolled total of `1` makes the result line end with the
critical-success clause `大成功！` and a total of at least `96` with the
critical-failure clause `大失败！`; in both cases the target/difficulty/gamble
logic is skipped entirely (the result is exactly the dice text, breakdown
and total followed by the critical clause), whether or not a target `tgt`
was supplied. -/
theorem d100_critical_override (expr : List Char) (rng : Nat → Nat) (k : Nat)
    (g : Bool) (d : Char) (e2 : List Char) (tgt : Option Int)
    (diceExpr : List Char) (total : Int) (details : List Char) (c : Nat)
    (hF : flagStripDicer expr = (g, d, e2))
    (hS : splitTarget e2 = Except.ok (tgt, diceExpr))
    (hR : rollDice (stripWs diceExpr) rng k = Except.ok (total, details, c))
    (hC : containsSub diceExpr oneD100 = true) :
    (total = 1 → evalDicer expr rng k =
      (stripWs diceExpr ++ ": ".data ++ details ++ "=".data ++ intStr total ++
        ", 大成功！".data, k + c)) ∧
    (96 ≤ total → evalDicer expr rng k =
      (stripWs diceExpr ++ ": ".data ++ details ++ "=".data ++ intStr total ++
        ", 大失败！".data, k + c)) :=
  eval_critical expr rng k g d e2 tgt diceExpr total details c hF hS hR hC

/-- Witness for C1: `"50/1d100"` with the constant entropy stream `0` rolls
a `1`, and despite the supplied target `50` the critical-success line is
produced; with stream `97` it rolls `98 ≥ 96` and despite `98 > 50` being an
ordinary failure the critical-failure line is produced. -/
theorem d100_critical_override_witness :
    (evalDicer "50/1d100".data (fun _ => 0) 0).1 = "1d100: 1=1, 大成功！".data ∧
    (evalDicer "50/1d100".data (fun _ => 97) 0).1 = "1d100: 98=98, 大失败！".data := by
  constructor
  · have h := (d100_critical_override "50/1d100".data (fun _ => 0) 0 false 'n'
      "50/1d100".data (some 50) "1d100".data 1 "1".data 1 rfl rfl rfl rfl).1 rfl
    rw [h]
    rfl
  · have h := (d100_critical_override "50/1d100".data (fun _ => 97) 0 false 'n'
      "50/1d100".data (some 50) "1d100".data 98 "98".data 1 rfl rfl rfl rfl).2
      (by norm_num)
    rw [h]
    rfl

/-- C3: for every dice spec accepted by the grammar with `count ≥ 1` and
`sides ≥ 1`, `roll_dice` makes exactly `count` draws, each in `[1, sides]`,
returns a total equal to the sum of the draws plus the modifier, and renders
the breakdown by joining the draws with `+`, appending the literal modifier
suffix exactly when the modifier is nonzero. -/
theorem rollDice_contract (s : List Char) (rng : Nat → Nat) (k : Nat)
    (g1 g2 : List Char) (g3 : Option (Char × List Char))
    (hP : diceRegex s = some (g1, g2, g3))
    (hCnt : 1 ≤ (if g1 = [] then 1 else natOfDigits g1))
    (hSid : 1 ≤ natOfDigits g2) :
    let count := if g1 = [] then 1 else natOfDigits g1
    let sides := natOfDigits g2
    let draws := drawList rng k count sides
    draws.length = count ∧
    (∀ x ∈ draws, 1 ≤ x ∧ x ≤ sides) ∧
    rollDice s rng k = Except.ok ((draws.sum : Int) + modValue g3,
      List.intercalate ['+'] (draws.map natStr) ++
        (if modValue g3 ≠ 0 then modText g3 else []), count) := by
  refine ⟨?_, ?_, ?_⟩
  · simp [drawList]
  · intro x hx
    simp only [drawList, List.mem_map, List.mem_range] at hx
    obtain ⟨i, -, rfl⟩ := hx
    have hm := Nat.mod_lt (rng (k + i)) (show 0 < natOfDigits g2 by omega)
    omega
  · unfold rollDice
    rw [hP]
    dsimp only
    rw [if_neg (by rintro ⟨-, h0⟩; omega)]

/-- Witness for C3: `"2d6+3"` parses with count `2`, sides `6`, modifier
`+3`; with the constant entropy stream `0` both draws are `1`, in range,
the total is `1+1+3 = 5`, and the breakdown is `1+1+3`. -/
theorem rollDice_contract_witness :
    diceRegex "2d6+3".data = some (['2'], ['6'], some ('+', ['3'])) ∧
    rollDice "2d6+3".data (fun _ => 0) 0 = Except.ok (5, "1+1+3".data, 2) := by
  refine ⟨rfl, ?_⟩
  have h := (rollDice_contract "2d6+3".data (fun _ => 0) 0 ['2'] ['6']
    (some ('+', ['3'])) rfl (by decide) (by decide)).2.2
  rw [h]
  rfl

/-- C2: every public evaluation entry point is total from the caller's
perspective.  In the model each entry point already has return type
`List Char` — the `try/except` boundary; the content of the claim is that
every outcome is either the normal result of the `try` body or the caught
exception rendered as a string beginning with `错误：`, and that the listed
malformed inputs (`"abc"`, `"d"`, `"5/"` to `evaluate_expression`,
`".m -x foo"` to `repeat_roll`) all take the error path, for every entropy
stream. -/
theorem entrypoints_total_error_string :
    (∀ (e : List Char) (rng : Nat → Nat) (k : Nat),
      (∃ r, evalDicerBody e rng k = Except.ok r ∧ evalDicer e rng k = r) ∨
      (∃ m, evalDicer e rng k = (errMark ++ m, k))) ∧
    (∀ (cmd : List Char) (rng : Nat → Nat) (k : Nat),
      (∃ m, quickRoll cmd rng k = errMark ++ m) ∨
      (∃ rest total details c, cmd = '.' :: 'r' :: rest ∧
        rollDice ("1d".data ++ natStr (rSides rest)) rng k =
          Except.ok (total, details, c) ∧
        quickRoll cmd rng k = "1d".data ++ natStr (rSides rest) ++ ": ".data ++
          details ++ "=".data ++ intStr total)) ∧
    (∀ (cmd : List Char) (rng : Nat → Nat) (k : Nat),
      (∃ m, repeatRoll cmd rng k = errMark ++ m) ∨
      (∃ n e, repeatRoll cmd rng k = executeRolls n e rng k)) ∧
    (∀ (rng : Nat → Nat) (k : Nat),
      (evalDicer "abc".data rng k).1 = errMark ++ "无效的表达式！".data ∧
      (evalDicer "d".data rng k).1 = errMark ++ "无效的表达式！".data ∧
      (evalDicer "5/".data rng k).1 = errMark ++ "无效的表达式！".data ∧
      repeatRoll ".m -x foo".data rng k = errMark ++ "无效的重复检定指令！".data) := by
  refine ⟨?_, ?_, ?_, ?_⟩
  · intro e rng k
    cases hB : evalDicerBody e rng k with
    | ok r => exact Or.inl ⟨r, rfl, by unfold evalDicer; rw [hB]⟩
    | error m => exact Or.inr ⟨m, by unfold evalDicer; rw [hB]⟩
  · intro cmd rng k
    cases hcmd : cmd with
    | nil => exact Or.inl ⟨"无效的表达式！".data, rfl⟩
    | cons c1 tail =>
      cases tail with
      | nil =>
        refine Or.inl ⟨"无效的表达式！".data, ?_⟩
        unfold quickRoll
        split
        · rename_i heq
          exact absurd heq (by simp)
        · rfl
      | cons c2 rest =>
        by_cases hr : c1 = '.' ∧ c2 = 'r'
        · obtain ⟨rfl, rfl⟩ := hr
          have hq : quickRoll ('.' :: 'r' :: rest) rng k = quickRollR rest rng k := rfl
          cases hR : rollDice ("1d".data ++ natStr (rSides rest)) rng k with
          | ok v =>
            refine Or.inr ⟨rest, v.1, v.2.1, v.2.2, rfl, ?_, ?_⟩
            · rw [hR]
            · rw [hq]
              unfold quickRollR
              rw [hR]
          | error m =>
            refine Or.inl ⟨m, ?_⟩
            rw [hq]
            unfold quickRollR
            rw [hR]
        · refine Or.inl ⟨"无效的表达式！".data, ?_⟩
          unfold quickRoll
          split
          · rename_i heq
            rw [List.cons.injEq, List.cons.injEq] at heq
            exact absurd ⟨heq.1, heq.2.1⟩ hr
          · rfl
  · intro cmd rng k
    unfold repeatRoll
    cases hm : mMatch cmd with
    | some nt => exact Or.inr ⟨nt.1, nt.2, rfl⟩
    | none =>
      cases hd : dtMatch cmd with
      | some ce => exact Or.inr ⟨if ce.1 = 'd' then 2 else 3, ce.2, rfl⟩
      | none => exact Or.inl ⟨"无效的重复检定指令！".data, rfl⟩
  · intro rng k
    exact ⟨rfl, rfl, rfl, rfl⟩

/-- C4: for every evaluation with a supplied integer target `t` that does
not hit the d100 critical override, the threshold is `t // 2` for Hard
(`d = 'h'`), `t // 5` for Extreme (`d = 'e'`) and `t` itself otherwise
(Python floor division, i.e. `Int.fdiv`); the check succeeds exactly when
`total ≤ threshold`; and the gamble flag `g` never appears in the success
branch — it only switches the failure phrasing to the forced critical
failure `孤注一掷失败，视为大失败！`. -/
theorem threshold_and_gamble (expr : List Char) (rng : Nat → Nat) (k : Nat)
    (g : Bool) (d : Char) (e2 : List Char) (t : Int) (diceExpr : List Char)
    (total : Int) (details : List Char) (c : Nat)
    (hF : flagStripDicer expr = (g, d, e2))
    (hS : splitTarget e2 = Except.ok (some t, diceExpr))
    (hR : rollDice (stripWs diceExpr) rng k = Except.ok (total, details, c))
    (hN : ¬(containsSub diceExpr oneD100 = true ∧ (total = 1 ∨ 96 ≤ total))) :
    evalDicer expr rng k =
      (stripWs diceExpr ++ ": ".data ++ details ++ "=".data ++ intStr total ++
        ", ".data ++
        (if total ≤ (if d = 'h' then Int.fdiv t 2 else if d = 'e' then Int.fdiv t 5 else t) then
          intStr total ++ "<=".data ++
            intStr (if d = 'h' then Int.fdiv t 2 else if d = 'e' then Int.fdiv t 5 else t) ++
            ", ".data ++ diffStrOf d ++ "检定通过！".data
         else if g then
          intStr total ++ ">".data ++
            intStr (if d = 'h' then Int.fdiv t 2 else if d = 'e' then Int.fdiv t 5 else t) ++
            ", ".data ++ diffStrOf d ++ "孤注一掷失败，视为大失败！".data
         else
          intStr total ++ ">".data ++
            intStr (if d = 'h' then Int.fdiv t 2 else if d = 'e' then Int.fdiv t 5 else t) ++
            ", ".data ++ diffStrOf d ++ "检定失败！".data),
       k + c) := by
  have hB : evalDicerBody expr rng k = Except.ok
      (stripWs diceExpr ++ ": ".data ++ details ++ "=".data ++ intStr total ++
        ", ".data ++
        (if total ≤ (if d = 'h' then Int.fdiv t 2 else if d = 'e' then Int.fdiv t 5 else t) then
          intStr total ++ "<=".data ++
            intStr (if d = 'h' then Int.fdiv t 2 else if d = 'e' then Int.fdiv t 5 else t) ++
            ", ".data ++ diffStrOf d ++ "检定通过！".data
         else if g then
          intStr total ++ ">".data ++
            intStr (if d = 'h' then Int.fdiv t 2 else if d = 'e' then Int.fdiv t 5 else t) ++
            ", ".data ++ diffStrOf d ++ "孤注一掷失败，视为大失败！".data
         else
          intStr total ++ ">".data ++
            intStr (if d = 'h' then Int.fdiv t 2 else if d = 'e' then Int.fdiv t 5 else t) ++
            ", ".data ++ diffStrOf d ++ "检定失败！".data),
       k + c) := by
    unfold evalDicerBody
    rw [hF]
    show evalCore g d (diffStrOf d) e2 rng k = _
    unfold evalCore
    rw [hS]
    dsimp only
    rw [hR]
    dsimp only
    rw [if_neg (fun h => hN ⟨h.1, Or.inl h.2⟩),
      if_neg (fun h => hN ⟨h.1, Or.inr h.2⟩)]
    unfold checkSuccess
    dsimp only
    by_cases hle : total ≤ (if d = 'h' then Int.fdiv t 2 else if d = 'e' then Int.fdiv t 5 else t)
    · rw [decide_eq_true hle, if_pos (rfl : (true : Bool) = true), if_pos hle]
    · rw [decide_eq_false hle, if_neg (fun h => Bool.false_ne_true h),
        if_neg hle]
  unfold evalDicer
  rw [hB]

/-- Witness for C4: `"40/1d100+2 -h"` with draw `15` gives total `17`,
threshold `40 // 2 = 20`, and the Hard success line; `"20/1d100 -g"` with
draw `50` gives `50 > 20` and the gamble-escalated failure line. -/
theorem threshold_and_gamble_witness :
    (evalDicer "40/1d100+2 -h".data (fun _ => 14) 0).1 =
      "1d100+2: 15+2=17, 17<=20, 困难检定通过！".data ∧
    (evalDicer "20/1d100 -g".data (fun _ => 49) 0).1 =
      "1d100: 50=50, 50>20, 孤注一掷失败，视为大失败！".data := by
  constructor
  · have h := threshold_and_gamble "40/1d100+2 -h".data (fun _ => 14) 0 false 'h'
      "40/1d100+2".data 40 "1d100+2".data 17 "15+2".data 1 rfl rfl rfl
      (by decide)
    rw [h]
    rfl
  · have h := threshold_and_gamble "20/1d100 -g".data (fun _ => 49) 0 true 'n'
      "20/1d100".data 20 "1d100".data 50 "50".data 1 rfl rfl rfl
      (by decide)
    rw [h]
    rfl

/-- Counterexample to C5: the claim says that with two or more `/` the text
is split on the first `/` only and the part after it goes to the dice-spec
parser.  On `"10/1d6/junk"` that reading would roll the dice text
`"1d6/junk"`, which the prefix-matching grammar accepts (second conjunct);
instead `split('/')` yields three parts, the two-variable unpacking raises
`ValueError: too many values to unpack (expected 2)`, and the evaluation
returns that error string (first conjunct). -/
theorem split_first_slash_cex :
    (evalDicer "10/1d6/junk".data (fun _ => 0) 0).1 =
      errMark ++ "too many values to unpack (expected 2)".data ∧
    rollDice "1d6/junk".data (fun _ => 0) 0 = Except.ok (1, ['1'], 1) ∧
    leadsWith errMark (evalDicer "10/1d6/junk".data (fun _ => 0) 0).1 = true :=
  ⟨rfl, rfl, by decide⟩

/-- C5 as amended: after flag stripping, `split('/')` splits on every `/`
and the result is unpacked into exactly two variables.  With exactly one
`/` the left part is parsed as the integer target and the right part is the
dice expression; with two or more `/` (three or more parts) the unpacking
fails and the whole evaluation returns the error string
`错误：too many values to unpack (expected 2)` — the text after the first
`/` is never handed to the dice-spec parser. -/
theorem split_unpack_behavior (e2 a b : List Char) (t : Int) (expr : List Char)
    (rng : Nat → Nat) (k : Nat) (g : Bool) (d : Char) :
    (containsSub e2 ['/'] = true → splitSlash e2 = [a, b] →
      pyInt a = Except.ok t → splitTarget e2 = Except.ok (some t, b)) ∧
    (containsSub e2 ['/'] = true → 3 ≤ (splitSlash e2).length →
      splitTarget e2 = Except.error "too many values to unpack (expected 2)".data) ∧
    (flagStripDicer expr = (g, d, e2) → containsSub e2 ['/'] = true →
      3 ≤ (splitSlash e2).length →
      evalDicer expr rng k =
        (errMark ++ "too many values to unpack (expected 2)".data, k)) := by
  have hTooMany : containsSub e2 ['/'] = true → 3 ≤ (splitSlash e2).length →
      splitTarget e2 = Except.error "too many values to unpack (expected 2)".data := by
    intro hc hl
    unfold splitTarget
    rw [if_pos hc]
    rcases hsp : splitSlash e2 with _ | ⟨x, _ | ⟨y, _ | ⟨z, r⟩⟩⟩ <;>
      rw [hsp] at hl <;> simp at hl
  refine ⟨?_, hTooMany, ?_⟩
  · intro hc hsp hi
    unfold splitTarget
    rw [if_pos hc, hsp]
    dsimp only
    rw [hi]
  · intro hF hc hl
    have hB : evalDicerBody expr rng k =
        Except.error "too many values to unpack (expected 2)".data := by
      unfold evalDicerBody
      rw [hF]
      show evalCore g d (diffStrOf d) e2 rng k = _
      unfold evalCore
      rw [hTooMany hc hl]
    unfold evalDicer
    rw [hB]

/-- Witness for C5's amended statement: `"5/1d6"` has exactly one `/` and
splits into target `5` and dice text `"1d6"`; `"10/1d6/junk"` has two and
evaluates to the unpacking error string. -/
theorem split_unpack_behavior_witness :
    splitTarget "5/1d6".data = Except.ok (some 5, "1d6".data) ∧
    evalDicer "10/1d6/junk".data (fun _ => 0) 0 =
      (errMark ++ "too many values to unpack (expected 2)".data, 0) := by
  constructor
  · exact (split_unpack_behavior "5/1d6".data "5".data "1d6".data 5
      "5/1d6".data (fun _ => 0) 0 false 'n').1 rfl rfl rfl
  · exact (split_unpack_behavior "10/1d6/junk".data [] [] 0
      "10/1d6/junk".data (fun _ => 0) 0 false 'n').2.2 rfl rfl (by decide)

/-- Counterexample to C6: the dice text `"4d100"` does **not** contain the
substring `1d100` (third conjunct), so on `"10/4d100"` with every draw `100`
(total `400 ≥ 96`) the code does not produce the critical-failure line — it
runs the ordinary threshold comparison and reports `400>10, 检定失败！`,
a line that does not end in `大失败！`. -/
theorem fourD100_trigger_cex :
    (evalDicer "10/4d100".data (fun _ => 99) 0).1 =
      "4d100: 100+100+100+100=400, 400>10, 检定失败！".data ∧
    trailsWith "大失败！".data (evalDicer "10/4d100".data (fun _ => 99) 0).1 = false ∧
    containsSub "4d100".data oneD100 = false :=
  ⟨rfl, by decide, rfl⟩

/-- C6 as amended: the critical override is a substring check on the raw
dice text, so `"21d100"` (which contains `1d100` textually) triggers it just
as `"1d100+3"` does, while `"4d100"` does not: for the expression
`"10/21d100"`, any successful roll with total at least `96` produces the
critical-failure line instead of the threshold comparison. -/
theorem substring_trigger_21d100 (rng : Nat → Nat) (k : Nat) (total : Int)
    (details : List Char) (c : Nat)
    (hR : rollDice "21d100".data rng k = Except.ok (total, details, c))
    (hT : 96 ≤ total) :
    evalDicer "10/21d100".data rng k =
      ("21d100: ".data ++ details ++ "=".data ++ intStr total ++
        ", 大失败！".data, k + c) := by
  have hR' : rollDice (stripWs "21d100".data) rng k =
      Except.ok (total, details, c) := hR
  have h := (eval_critical "10/21d100".data rng k false 'n' "10/21d100".data
    (some 10) "21d100".data total details c rfl rfl hR' rfl).2 hT
  exact h

/-- Witness for C6's amended statement: with constant entropy `4` every one
of the 21 draws is `5`, the total is `105 ≥ 96`, and despite `105 > 10`
being an ordinary failure the critical-failure line is emitted. -/
theorem substring_trigger_21d100_witness :
    evalDicer "10/21d100".data (fun _ => 4) 0 =
      ("21d100: 5+5+5+5+5+5+5+5+5+5+5+5+5+5+5+5+5+5+5+5+5=105, 大失败！".data, 21) := by
  have h := substring_trigger_21d100 (fun _ => 4) 0 105
    "5+5+5+5+5+5+5+5+5+5+5+5+5+5+5+5+5+5+5+5+5".data 21 rfl (by norm_num)
  rw [h]
  rfl

/-- The trial-line list always has exactly `times` entries. -/
lemma execRollsList_length (e : List Char) (rng : Nat → Nat) :
    ∀ (n i k : Nat), (execRollsList e rng n i k).length = n := by
  intro n
  induction n with
  | zero => intro i k; rfl
  | succ m ih =>
    intro i k
    unfold execRollsList
    simp [ih]

/-- Every trial line is the numbered result of a fresh evaluation: line `j`
(0-based) carries the 1-based number `i + j + 1` and embeds the full output
of `evaluate_expression` at some entropy cursor — whether that output is a
success line or an error line. -/
lemma execRollsList_get (e : List Char) (rng : Nat → Nat) :
    ∀ (n i k j : Nat), j < n → ∃ kj,
      (execRollsList e rng n i k).getD j [] =
        "第 ".data ++ natStr (i + j + 1) ++ " 次 -> ".data ++ (evalDicer e rng kj).1 := by
  intro n
  induction n with
  | zero => intro i k j hj; omega
  | succ m ih =>
    intro i k j hj
    cases j with
    | zero => exact ⟨k, rfl⟩
    | succ j' =>
      obtain ⟨kj, hkj⟩ := ih (i + 1) (evalDicer e rng k).2 j' (by omega)
      refine ⟨kj, ?_⟩
      have hstep : (execRollsList e rng (m + 1) i k).getD (j' + 1) [] =
          (execRollsList e rng m (i + 1) (evalDicer e rng k).2).getD j' [] := rfl
      rw [hstep, hkj]
      have : i + 1 + j' + 1 = i + (j' + 1) + 1 := by omega
      rw [this]

/-- A command matched by the `.d`/`.t` regex cannot match the `.m` regex,
which `repeat_roll` tries first. -/
lemma dtMatch_mMatch_none (cmd : List Char) (c : Char) (e : List Char)
    (h : dtMatch cmd = some (c, e)) :
    mMatch cmd = none ∧ (c = 'd' ∨ c = 't') := by
  unfold dtMatch at h
  split at h
  · rename_i c' rest
    split at h
    · rename_i hdt
      cases hw : wsExprSplit rest with
      | some x =>
        rw [hw] at h
        have hc : c' = c ∧ x = e := by
          have := Option.some.inj h
          exact ⟨congrArg Prod.fst this, congrArg Prod.snd this⟩
        rcases hc with ⟨rfl, rfl⟩
        rcases hdt with h' | h' <;> subst h' <;> exact ⟨rfl, by simp⟩
      | none =>
        rw [hw] at h
        exact absurd h (by simp)
    · exact absurd h (by simp)
  · exact absurd h (by simp)

/-- C7: `.d <expr>` runs exactly 2 trials, `.t <expr>` exactly 3 and
`.m -<n> <expr>` exactly `n` (the four regex-match hypotheses express the
grammar forms); the trial lines are joined with newlines, there are exactly
`n` of them, and line `j` (0-based) is prefixed `第 <j+1> 次 -> ` with
1-based sequential numbering and embeds the complete result of a fresh
independent evaluation — including the case where that evaluation failed and
its `错误：` string is emitted under its own trial number while the
remaining trials still run. -/
theorem repeat_counts_and_numbering (cmd e : List Char) (n : Nat)
    (rng : Nat → Nat) (k i : Nat) :
    (mMatch cmd = some (n, e) → repeatRoll cmd rng k =
      List.intercalate ['\n'] (execRollsList e rng n 0 k)) ∧
    (dtMatch cmd = some ('d', e) → repeatRoll cmd rng k =
      List.intercalate ['\n'] (execRollsList e rng 2 0 k)) ∧
    (dtMatch cmd = some ('t', e) → repeatRoll cmd rng k =
      List.intercalate ['\n'] (execRollsList e rng 3 0 k)) ∧
    (execRollsList e rng n i k).length = n ∧
    (∀ j, j < n → ∃ kj,
      (execRollsList e rng n i k).getD j [] =
        "第 ".data ++ natStr (i + j + 1) ++ " 次 -> ".data ++
          (evalDicer e rng kj).1) := by
  refine ⟨?_, ?_, ?_, execRollsList_length e rng n i k,
    fun j hj => execRollsList_get e rng n i k j hj⟩
  · intro h
    unfold repeatRoll
    rw [h]
    rfl
  · intro h
    have hm := (dtMatch_mMatch_none cmd 'd' e h).1
    unfold repeatRoll
    rw [hm, h]
    rfl
  · intro h
    have hm := (dtMatch_mMatch_none cmd 't' e h).1
    unfold repeatRoll
    rw [hm, h]
    rfl

/-- Witness for C7: `.m -2 1d6`, `.d 1d6` and `.t 1d6` with the constant
stream `0` (every draw `1`) produce 2, 2 and 3 numbered trial lines. -/
theorem repeat_counts_and_numbering_witness :
    repeatRoll ".m -2 1d6".data (fun _ => 0) 0 =
      "第 1 次 -> 1d6: 1=1, 1\n第 2 次 -> 1d6: 1=1, 1".data ∧
    repeatRoll ".d 1d6".data (fun _ => 0) 0 =
      "第 1 次 -> 1d6: 1=1, 1\n第 2 次 -> 1d6: 1=1, 1".data ∧
    repeatRoll ".t 1d6".data (fun _ => 0) 0 =
      "第 1 次 -> 1d6: 1=1, 1\n第 2 次 -> 1d6: 1=1, 1\n第 3 次 -> 1d6: 1=1, 1".data := by
  refine ⟨?_, ?_, ?_⟩
  · have h := (repeat_counts_and_numbering ".m -2 1d6".data "1d6".data 2
      (fun _ => 0) 0 0).1 rfl
    rw [h]
    rfl
  · have h := (repeat_counts_and_numbering ".d 1d6".data "1d6".data 2
      (fun _ => 0) 0 0).2.1 rfl
    rw [h]
    rfl
  · have h := (repeat_counts_and_numbering ".t 1d6".data "1d6".data 3
      (fun _ => 0) 0 0).2.2.1 rfl
    rw [h]
    rfl

/-- Counterexample to C8: `.r abc` does not fail — `re.match(r'\.r\s*(\d+)?')`
is a prefix match, the optional group matches empty, and a default d100 is
rolled; `.m -0 1d6` matches the `.m` regex with `n = 0` and returns the
empty string (zero trial lines), not an error.  Neither result starts with
`错误：`. -/
theorem command_grammar_cex :
    quickRoll ".r abc".data (fun _ => 0) 0 = "1d100: 1=1".data ∧
    leadsWith errMark (quickRoll ".r abc".data (fun _ => 0) 0) = false ∧
    repeatRoll ".m -0 1d6".data (fun _ => 0) 0 = [] ∧
    leadsWith errMark (repeatRoll ".m -0 1d6".data (fun _ => 0) 0) = false :=
  ⟨rfl, by decide, rfl, by decide⟩

/-- Helper: a command that does not start with `.r` makes `quick_roll`'s
regex fail, raising the `ValueError` that is caught and rendered. -/
lemma quickRoll_not_r (cmd : List Char) (rng : Nat → Nat) (k : Nat)
    (h : isRCmd cmd = false) :
    quickRoll cmd rng k = errMark ++ "无效的表达式！".data := by
  cases cmd with
  | nil => rfl
  | cons c1 tail =>
    cases tail with
    | nil =>
      unfold quickRoll
      split
      · rename_i heq
        exact absurd heq (by simp)
      · rfl
    | cons c2 rest =>
      by_cases hr : c1 = '.' ∧ c2 = 'r'
      · obtain ⟨rfl, rfl⟩ := hr
        exact absurd h (by simp [isRCmd])
      · unfold quickRoll
        split
        · rename_i heq
          rw [List.cons.injEq, List.cons.injEq] at heq
          exact absurd ⟨heq.1, heq.2.1⟩ hr
        · rfl

/-- C8 as amended: a `.d`/`.t`/`.m`-style command that matches neither
repeat regex, and a quick-roll command that does not start with `.r`, fail
with the caught `ValueError` rendered as a `错误：` string.  However the
examples the original claim lists are not rejected: `.r abc` is accepted by
the prefix regex (the trailing `abc` is ignored and the default 100-sided
die is rolled), and `.m -0 1d6` is accepted with `n = 0`, producing the
empty string (zero trials) rather than an error. -/
theorem repeat_malformed_error (cmd : List Char) (rng : Nat → Nat) (k : Nat) :
    (mMatch cmd = none → dtMatch cmd = none →
      repeatRoll cmd rng k = errMark ++ "无效的重复检定指令！".data) ∧
    (isRCmd cmd = false →
      quickRoll cmd rng k = errMark ++ "无效的表达式！".data) ∧
    repeatRoll ".m -0 1d6".data rng k = [] ∧
    quickRoll ('.' :: 'r' :: " abc".data) rng k =
      "1d100: ".data ++ natStr (1 + rng k % 100) ++ "=".data ++
        intStr ((1 + rng k % 100 : Nat) : Int) := by
  refine ⟨?_, fun h => quickRoll_not_r cmd rng k h, rfl, ?_⟩
  · intro hm hd
    unfold repeatRoll
    rw [hm, hd]
  · have hq : quickRoll ('.' :: 'r' :: " abc".data) rng k =
        quickRollR " abc".data rng k := rfl
    rw [hq]
    unfold quickRollR
    have hside : rSides " abc".data = 100 := rfl
    rw [hside]
    have hroll : rollDice ("1d".data ++ natStr 100) rng k =
        Except.ok (((1 + rng k % 100 : Nat) : Int), natStr (1 + rng k % 100), 1) := by
      show rollDice "1d100".data rng k = _
      unfold rollDice
      simp [show diceRegex "1d100".data = some (['1'], ['1', '0', '0'], none) from rfl,
        drawList, List.intercalate, List.intersperse, modValue, natOfDigits,
        show List.range 1 = [0] from rfl]
    rw [hroll]
    rfl

/-- Witness for C8's amended statement: `.m foo` matches neither repeat
regex and yields the error string; `xyz` is not a `.r` command and
`quick_roll` yields the error string; the remaining conjuncts are evaluated
at the constant entropy stream `0`. -/
theorem repeat_malformed_error_witness :
    repeatRoll ".m foo".data (fun _ => 0) 0 =
      errMark ++ "无效的重复检定指令！".data ∧
    quickRoll "xyz".data (fun _ => 0) 0 = errMark ++ "无效的表达式！".data ∧
    repeatRoll ".m -0 1d6".data (fun _ => 0) 0 = [] ∧
    quickRoll ('.' :: 'r' :: " abc".data) (fun _ => 0) 0 =
      "1d100: ".data ++ natStr 1 ++ "=".data ++ intStr 1 := by
  have h := repeat_malformed_error ".m foo".data (fun _ => 0) 0
  have h2 := repeat_malformed_error "xyz".data (fun _ => 0) 0
  exact ⟨h.1 rfl rfl, h2.2.1 rfl, h.2.2.1, h.2.2.2⟩

/-- Counterexample to C9: the two implementations strip flags differently —
`Dicer.py` replaces the space-prefixed `' -g'` while `dicer.py` replaces
`'-g'` and strips.  On `"-g 1d6"` (flag first, so no preceding space) the
former leaves the flag in the dice text and fails to parse it, while the
latter removes it and rolls: with the same entropy stream the two return
different strings. -/
theorem two_files_differ_cex :
    (evalDicer "-g 1d6".data (fun _ => 0) 0).1 =
      errMark ++ "无效的表达式！".data ∧
    (evalDicer2 "-g 1d6".data (fun _ => 0) 0).1 = "1d6: 1=1, 1".data ∧
    (evalDicer "-g 1d6".data (fun _ => 0) 0).1 ≠
      (evalDicer2 "-g 1d6".data (fun _ => 0) 0).1 :=
  ⟨rfl, rfl, by decide⟩

/-- C9 as amended: the two `evaluate_expression` implementations agree —
for every entropy stream and cursor — on every expression in which none of
the flag substrings `-g`, `-h`, `-e` occurs, because then both flag-stripping
phases leave the text unchanged, both difficulty qualifiers are empty, and
the remaining engine code is identical in the two files. -/
theorem flagfree_equivalence (e : List Char) (rng : Nat → Nat) (k : Nat)
    (hg : containsSub e "-g".data = false)
    (hh : containsSub e "-h".data = false)
    (he : containsSub e "-e".data = false) :
    evalDicer e rng k = evalDicer2 e rng k := by
  have h1 : flagStripDicer e = (false, 'n', e) := by
    unfold flagStripDicer
    simp [hg, hh, he]
  have h2 : optionsDicer2 e = (false, false, false, e) := by
    unfold optionsDicer2 stripOpt
    simp [hg, hh, he]
  unfold evalDicer evalDicer2 evalDicerBody evalDicer2Body
  rw [h1, h2]
  rfl

/-- Witness for C9's amended statement: `"10/1d6"` contains no flag
substring and both implementations produce the same result line. -/
theorem flagfree_equivalence_witness :
    evalDicer "10/1d6".data (fun _ => 0) 0 =
      evalDicer2 "10/1d6".data (fun _ => 0) 0 ∧
    (evalDicer "10/1d6".data (fun _ => 0) 0).1 =
      "1d6: 1=1, 1<=10, 检定通过！".data :=
  ⟨flagfree_equivalence "10/1d6".data (fun _ => 0) 0 rfl rfl rfl, rfl⟩

/-- Counterexample to C10: the claim predicts the output `0d6: =0` for the
expression `0d6`, but the no-target arm of `evaluate_expression` always
appends the bare total as the outcome clause, so the code returns
`0d6: =0, 0`. -/
theorem zero_count_output_cex :
    (evalDicer "0d6".data (fun _ => 0) 0).1 = "0d6: =0, 0".data ∧
    "0d6: =0, 0".data ≠ "0d6: =0".data :=
  ⟨rfl, by decide⟩

/-- C10 as amended: a dice expression with an explicit count of `0` succeeds
with no error — zero draws, an empty breakdown, a total equal to the
modifier (here `0`) — but the result line is `0d6: =0, 0`, with the bare
total repeated as the outcome clause; whereas `1d0` makes `randint(1, 0)`
raise, and the result is the caught error string beginning `错误：`.  Both
hold for every entropy stream and cursor. -/
theorem degenerate_dice_specs (rng : Nat → Nat) (k : Nat) :
    evalDicer "0d6".data rng k = ("0d6: =0, 0".data, k) ∧
    (evalDicer "1d0".data rng k).1 =
      errMark ++ "empty range for randrange() (1, 1, 0)".data ∧
    leadsWith errMark (evalDicer "1d0".data rng k).1 = true := by
  have h0 : evalDicerBody "0d6".data rng k =
      Except.ok ("0d6: =0, 0".data, k) := by
    unfold evalDicerBody
    rw [show flagStripDicer "0d6".data = (false, 'n', "0d6".data) from rfl]
    show evalCore false 'n' (diffStrOf 'n') "0d6".data rng k = _
    unfold evalCore
    rw [show splitTarget "0d6".data = .ok (none, "0d6".data) from rfl]
    dsimp only
    rw [show rollDice (stripWs "0d6".data) rng k = .ok (0, [], 0) from rfl]
    rfl
  have h1 : evalDicerBody "1d0".data rng k =
      Except.error "empty range for randrange() (1, 1, 0)".data := by
    unfold evalDicerBody
    rw [show flagStripDicer "1d0".data = (false, 'n', "1d0".data) from rfl]
    show evalCore false 'n' (diffStrOf 'n') "1d0".data rng k = _
    unfold evalCore
    rw [show splitTarget "1d0".data = .ok (none, "1d0".data) from rfl]
    dsimp only
    rw [show rollDice (stripWs "1d0".data) rng k =
      .error "empty range for randrange() (1, 1, 0)".data from rfl]
  refine ⟨?_, ?_, ?_⟩
  · unfold evalDicer
    rw [h0]
  · unfold evalDicer
    rw [h1]
  · unfold evalDicer
    rw [h1]
    rfl
